import Mathlib

/-!
# ConsumerGroupService (package kong)

A shallow embedding of `kong/consumer_group_service.go`.

Conventions of the embedding:

* a Go pointer `*T` is an `Option T` (`none` is the nil pointer);
* a Go slice is a list, the nil slice being the empty list;
* a Go `error` result is an `Option` of an error value (`none` is the nil error);
* a Go multi-value return is a tuple, in the order of the Go signature;
* dereferencing a nil pointer is the outcome `Outcome.panics`;
* the collaborators of the service (`NewRequest`, `Do`, `client.list`, `isEmptyString`,
  `pageSize`, and the JSON functions of the standard library) are not defined in this
  file of the package: they are the fields of an environment `Env`, over which every
  statement is universally quantified.  `NewRequest`, `Do` and `client.list` act on a
  state `σ` (the connection and the server behind it);
* every call of `NewRequest`, `Do` and `client.list` is recorded, in order, in the trace
  of the `World` the operations run in.
-/

namespace kong

/-- A Go slice: the nil slice and the empty slice are both the empty list. -/
abbrev Slice (α : Type) := List α

/-- A Go byte slice. -/
abbrev Bytes := List Nat

/-- Modelled from the spec: the declaration of `ConsumerGroup` is not among the source
files; the fields are the ones the service and its tests read and write (`ID`, `Name`,
`Tags`), with the pointer types those uses show. -/
structure ConsumerGroup where
  ID : Option String
  Name : Option String
  Tags : Slice (Option String)
  deriving DecidableEq, Repr

/-- The zero value of `ConsumerGroup` (`var createdConsumerGroup ConsumerGroup`). -/
def ConsumerGroup.zero : ConsumerGroup := ⟨none, none, []⟩

/-- An object that contains an actual ConsumerGroup under a `consumer_group` key. -/
structure wrappedConsumerGroup where
  ConsumerGroup : Option ConsumerGroup
  deriving DecidableEq, Repr

/-- The zero value of `wrappedConsumerGroup` (`var wrapped wrappedConsumerGroup`). -/
def wrappedConsumerGroup.zero : wrappedConsumerGroup := ⟨none⟩

/-- Modelled from the spec: the declaration of `ListOpt` is not among the source files;
the fields are the ones the service and its tests set (`Size`, `Tags`, `MatchAllTags`). -/
structure ListOpt where
  Size : Int
  Tags : Slice (Option String)
  MatchAllTags : Bool
  deriving DecidableEq, Repr

/-- A value this service passes where Go expects an `interface{}` (the `qs` and `body`
arguments of `NewRequest`): the nil interface or a pointer to a consumer group. -/
inductive Iface where
  | nil
  | consumerGroup (p : ConsumerGroup)
  deriving DecidableEq, Repr

/-- The third argument `v` of `Do`, by its static type: `&createdConsumerGroup`
(a `*ConsumerGroup`), `&wrapped` (a `*wrappedConsumerGroup`) or `nil`. -/
inductive Target where
  | consumerGroup
  | wrapped
  | nil
  deriving DecidableEq, Repr

/-- The type of the value `v` points to (nothing for `nil`). -/
def Target.val : Target → Type
  | .consumerGroup => ConsumerGroup
  | .wrapped => wrappedConsumerGroup
  | .nil => Unit

/-- A Go error value as this service sees it: one it made itself with `fmt.Errorf`, or
one a collaborator returned. Two error values are the same value only when they have the
same origin. -/
inductive GoError (Err : Type) where
  | errorf (msg : String)
  | collaborator (e : Err)
  deriving DecidableEq, Repr

/-- `fmt.Errorf` on a format string without verbs: an error with that message. -/
def fmtErrorf {Err : Type} (format : String) : GoError Err := GoError.errorf format

/-- One call made to a collaborator, with its arguments. -/
inductive Call (Req Ctx : Type) where
  | NewRequest (method path : String) (qs body : Iface)
  | Do (ctx : Ctx) (req : Option Req) (v : Target)
  | list (ctx : Ctx) (path : String) (opt : Option ListOpt)
  deriving DecidableEq, Repr

/-- The result of running a Go function: it returns a value or it panics. -/
inductive Outcome (α : Type) where
  | returns (a : α)
  | panics
  deriving DecidableEq, Repr

/-- The collaborators of the service. -/
structure Env (σ Req Err Ctx Raw : Type) where
  /-- `client.NewRequest(method, endpoint, qs, body) (*http.Request, error)` -/
  NewRequest : String → String → Iface → Iface → σ → (Option Req × Option Err) × σ
  /-- `client.Do(ctx, req, v) (*Response, error)`: gives the content of `*v` after the
  call and the error; the response itself is discarded by every caller in this file. -/
  Do : Ctx → Option Req → (t : Target) → t.val → σ → (t.val × Option Err) × σ
  /-- `client.list(ctx, endpoint, opt) ([]json.RawMessage, *ListOpt, error)` -/
  list : Ctx → String → Option ListOpt → σ → (Slice Raw × Option ListOpt × Option Err) × σ
  /-- `isEmptyString(s *string) bool` -/
  isEmptyString : Option String → Bool
  /-- `json.RawMessage.MarshalJSON() ([]byte, error)` -/
  MarshalJSON : Raw → Bytes × Option Err
  /-- `json.Unmarshal(b, &consumerGroup) error`: gives the content of `consumerGroup`
  after the call and the error. -/
  Unmarshal : Bytes → ConsumerGroup → ConsumerGroup × Option Err
  /-- The package constant `pageSize`. -/
  pageSize : Int

/-- The state the operations run in: the state of the collaborators and the calls made
to them so far, oldest first. -/
structure World (σ Req Ctx : Type) where
  st : σ
  trace : List (Call Req Ctx)
  deriving DecidableEq, Repr

/-- Whether a recorded call is a call of `NewRequest`. -/
def Call.isNewRequest {Req Ctx : Type} : Call Req Ctx → Bool
  | .NewRequest _ _ _ _ => true
  | _ => false

/-- Whether a recorded call is a call of `Do`. -/
def Call.isDo {Req Ctx : Type} : Call Req Ctx → Bool
  | .Do _ _ _ => true
  | _ => false

section Operations

variable {σ Req Err Ctx Raw : Type}

/-- `s.client.NewRequest(method, endpoint, qs, body)`, recorded in the trace. -/
def callNewRequest (env : Env σ Req Err Ctx Raw) (method path : String) (qs body : Iface)
    (w : World σ Req Ctx) : (Option Req × Option Err) × World σ Req Ctx :=
  let r := env.NewRequest method path qs body w.st
  (r.1, ⟨r.2, w.trace ++ [Call.NewRequest method path qs body]⟩)

/-- `s.client.Do(ctx, req, v)`, recorded in the trace. -/
def callDo (env : Env σ Req Err Ctx Raw) (ctx : Ctx) (req : Option Req) (t : Target)
    (v : t.val) (w : World σ Req Ctx) : (t.val × Option Err) × World σ Req Ctx :=
  let r := env.Do ctx req t v w.st
  (r.1, ⟨r.2, w.trace ++ [Call.Do ctx req t]⟩)

/-- `s.client.list(ctx, endpoint, opt)`, recorded in the trace. -/
def callList (env : Env σ Req Err Ctx Raw) (ctx : Ctx) (path : String)
    (opt : Option ListOpt) (w : World σ Req Ctx) :
    (Slice Raw × Option ListOpt × Option Err) × World σ Req Ctx :=
  let r := env.list ctx path opt w.st
  (r.1, ⟨r.2, w.trace ++ [Call.list ctx path opt]⟩)

/-- The first lines of `Create`, once `consumerGroup` is known not to be nil: the values
of `queryPath` and `method` when `NewRequest` is called. -/
def ConsumerGroupService.Create.route (cg : ConsumerGroup) : String × String :=
  let queryPath := "/consumer_groups"
  let method := "POST"
  match cg.ID with
  | some id => (queryPath ++ "/" ++ id, "PUT")
  | none => (queryPath, method)

/-- `func (s *ConsumerGroupService) Create(ctx, consumerGroup) (*ConsumerGroup, error)`;
`route.1` is `queryPath` and `route.2` is `method`. -/
def ConsumerGroupService.Create (env : Env σ Req Err Ctx Raw) (ctx : Ctx)
    (consumerGroup : Option ConsumerGroup) (w : World σ Req Ctx) :
    Outcome (Option ConsumerGroup × Option (GoError Err)) × World σ Req Ctx :=
  match consumerGroup with
  | none => (Outcome.panics, w)
  | some cg =>
    let route := ConsumerGroupService.Create.route cg
    match callNewRequest env route.2 route.1 Iface.nil (Iface.consumerGroup cg) w with
    | ((_, some err), w1) => (Outcome.returns (none, some (GoError.collaborator err)), w1)
    | ((req, none), w1) =>
      match callDo env ctx req Target.consumerGroup ConsumerGroup.zero w1 with
      | ((_, some err), w2) => (Outcome.returns (none, some (GoError.collaborator err)), w2)
      | ((createdConsumerGroup, none), w2) =>
        (Outcome.returns (some createdConsumerGroup, none), w2)

/-- `func (s *ConsumerGroupService) Get(ctx, nameOrID) (*ConsumerGroup, error)` -/
def ConsumerGroupService.Get (env : Env σ Req Err Ctx Raw) (ctx : Ctx)
    (nameOrID : Option String) (w : World σ Req Ctx) :
    Outcome (Option ConsumerGroup × Option (GoError Err)) × World σ Req Ctx :=
  if env.isEmptyString nameOrID then
    (Outcome.returns (none, some (fmtErrorf "nameOrID cannot be nil for Get operation")), w)
  else
    match nameOrID with
    | none => (Outcome.panics, w)
    | some id =>
      let endpoint := "/consumer_groups/" ++ id
      match callNewRequest env "GET" endpoint Iface.nil Iface.nil w with
      | ((_, some err), w1) => (Outcome.returns (none, some (GoError.collaborator err)), w1)
      | ((req, none), w1) =>
        match callDo env ctx req Target.wrapped wrappedConsumerGroup.zero w1 with
        | ((_, some err), w2) => (Outcome.returns (none, some (GoError.collaborator err)), w2)
        | ((wrapped, none), w2) => (Outcome.returns (wrapped.ConsumerGroup, none), w2)

/-- `func (s *ConsumerGroupService) Update(ctx, consumerGroup) (*ConsumerGroup, error)` -/
def ConsumerGroupService.Update (env : Env σ Req Err Ctx Raw) (ctx : Ctx)
    (consumerGroup : Option ConsumerGroup) (w : World σ Req Ctx) :
    Outcome (Option ConsumerGroup × Option (GoError Err)) × World σ Req Ctx :=
  match consumerGroup with
  | none => (Outcome.panics, w)
  | some cg =>
    if env.isEmptyString cg.ID then
      (Outcome.returns (none, some (fmtErrorf "ID cannot be nil for Update operation")), w)
    else
      match cg.ID with
      | none => (Outcome.panics, w)
      | some id =>
        let endpoint := "/consumer_groups/" ++ id
        match callNewRequest env "PATCH" endpoint Iface.nil (Iface.consumerGroup cg) w with
        | ((_, some err), w1) => (Outcome.returns (none, some (GoError.collaborator err)), w1)
        | ((req, none), w1) =>
          match callDo env ctx req Target.consumerGroup ConsumerGroup.zero w1 with
          | ((_, some err), w2) =>
            (Outcome.returns (none, some (GoError.collaborator err)), w2)
          | ((updatedAPI, none), w2) => (Outcome.returns (some updatedAPI, none), w2)

/-- `func (s *ConsumerGroupService) Delete(ctx, nameOrID) error` -/
def ConsumerGroupService.Delete (env : Env σ Req Err Ctx Raw) (ctx : Ctx)
    (nameOrID : Option String) (w : World σ Req Ctx) :
    Outcome (Option (GoError Err)) × World σ Req Ctx :=
  if env.isEmptyString nameOrID then
    (Outcome.returns (some (fmtErrorf "nameOrID cannot be nil for Delete operation")), w)
  else
    match nameOrID with
    | none => (Outcome.panics, w)
    | some id =>
      let endpoint := "/consumer_groups/" ++ id
      match callNewRequest env "DELETE" endpoint Iface.nil Iface.nil w with
      | ((_, some err), w1) => (Outcome.returns (some (GoError.collaborator err)), w1)
      | ((req, none), w1) =>
        match callDo env ctx req Target.nil () w1 with
        | ((_, err), w2) => (Outcome.returns (err.map GoError.collaborator), w2)

/-- The `for _, object := range data` loop of `List`: `consumerGroups` is the slice
built so far, `next` the cursor returned with it when the loop runs to its end. -/
def ConsumerGroupService.ListLoop (env : Env σ Req Err Ctx Raw) (next : Option ListOpt) :
    Slice Raw → Slice ConsumerGroup →
    Slice ConsumerGroup × Option ListOpt × Option (GoError Err)
  | [], consumerGroups => (consumerGroups, next, none)
  | object :: rest, consumerGroups =>
    match env.MarshalJSON object with
    | (_, some err) => ([], none, some (GoError.collaborator err))
    | (b, none) =>
      match env.Unmarshal b ConsumerGroup.zero with
      | (_, some err) => ([], none, some (GoError.collaborator err))
      | (consumerGroup, none) =>
        ConsumerGroupService.ListLoop env next rest (consumerGroups ++ [consumerGroup])

/-- `func (s *ConsumerGroupService) List(ctx, opt) ([]*ConsumerGroup, *ListOpt, error)` -/
def ConsumerGroupService.List (env : Env σ Req Err Ctx Raw) (ctx : Ctx)
    (opt : Option ListOpt) (w : World σ Req Ctx) :
    (Slice ConsumerGroup × Option ListOpt × Option (GoError Err)) × World σ Req Ctx :=
  match callList env ctx "/consumer_groups" opt w with
  | ((_, _, some err), w1) => (([], none, some (GoError.collaborator err)), w1)
  | ((data, next, none), w1) => (ConsumerGroupService.ListLoop env next data [], w1)

/-- The `for opt != nil` loop of `ListAll`. Each test of the loop condition uses one unit
of fuel; `none` means the fuel ran out before the loop ended. -/
def ConsumerGroupService.ListAllLoop (env : Env σ Req Err Ctx Raw) (ctx : Ctx) :
    Nat → Slice ConsumerGroup → Option ListOpt → World σ Req Ctx →
    Option ((Slice ConsumerGroup × Option (GoError Err)) × World σ Req Ctx)
  | 0, _, _, _ => none
  | _ + 1, consumerGroups, none, w => some ((consumerGroups, none), w)
  | fuel + 1, consumerGroups, some o, w =>
    match ConsumerGroupService.List env ctx (some o) w with
    | ((_, _, some err), w1) => some (([], some err), w1)
    | ((data, opt, none), w1) =>
      ConsumerGroupService.ListAllLoop env ctx fuel (consumerGroups ++ data) opt w1

/-- `func (s *ConsumerGroupService) ListAll(ctx) ([]*ConsumerGroup, error)`, with the
fuel of its loop: `none` when the loop has not ended within `fuel` tests of its
condition. -/
def ConsumerGroupService.ListAll (env : Env σ Req Err Ctx Raw) (ctx : Ctx) (fuel : Nat)
    (w : World σ Req Ctx) :
    Option ((Slice ConsumerGroup × Option (GoError Err)) × World σ Req Ctx) :=
  ConsumerGroupService.ListAllLoop env ctx fuel [] (some ⟨env.pageSize, [], false⟩) w

/-- The calls an operation adds to the trace when it gets past validation: one call of
`NewRequest`, then one call of `Do` if `NewRequest` returned a nil error. -/
def roundTripCalls (env : Env σ Req Err Ctx Raw) (ctx : Ctx) (method path : String)
    (qs body : Iface) (t : Target) (w : World σ Req Ctx) : List (Call Req Ctx) :=
  Call.NewRequest method path qs body ::
    match (env.NewRequest method path qs body w.st).1 with
    | (_, some _) => []
    | (req, none) => [Call.Do ctx req t]

/-- The error of decoding one element of a page, as the body of the loop of `List` does
it: `MarshalJSON`, then `json.Unmarshal` into a zero `ConsumerGroup`; the first error
met, or `none`. -/
def decodeError (env : Env σ Req Err Ctx Raw) (object : Raw) : Option Err :=
  match env.MarshalJSON object with
  | (_, some err) => some err
  | (b, none) => (env.Unmarshal b ConsumerGroup.zero).2

/-- The JSON decoding of one element of a page: the content `json.Unmarshal` leaves in a
zero `ConsumerGroup`, from the bytes `MarshalJSON` gives. -/
def decoded (env : Env σ Req Err Ctx Raw) (object : Raw) : ConsumerGroup :=
  (env.Unmarshal (env.MarshalJSON object).1 ConsumerGroup.zero).1

/-- `Pages env ctx w opt pages w1 opt1`: from the world `w` and the cursor `opt`, calling
`List` again and again with the cursor the previous call returned, every call returns a
nil error, the calls return `pages` (the consumer groups and the next cursor of each, in
order), and the last of them leaves the world `w1` and the cursor `opt1`. -/
def Pages (env : Env σ Req Err Ctx Raw) (ctx : Ctx) :
    World σ Req Ctx → Option ListOpt → List (Slice ConsumerGroup × Option ListOpt) →
    World σ Req Ctx → Option ListOpt → Prop
  | w, opt, [], w1, opt1 => w = w1 ∧ opt = opt1
  | w, opt, page :: rest, w1, opt1 =>
    ∃ o, opt = some o ∧ ∃ wn, ConsumerGroupService.List env ctx (some o) w
      = ((page.1, page.2, none), wn) ∧ Pages env ctx wn page.2 rest w1 opt1

/-- The cursors the calls of `List` are made with, when the first is made with `opt` and
the calls return `pages`: `opt`, then the cursor each call but the last returned. -/
def cursorsUsed : Option ListOpt → List (Slice ConsumerGroup × Option ListOpt) →
    List (Option ListOpt)
  | _, [] => []
  | opt, page :: rest => opt :: cursorsUsed page.2 rest

end Operations

/-! ## A concrete client, for evaluating the operations -/

/-- A scripted client. Requests are (method, path) pairs, errors are messages, raw
messages are byte lists, and the state is the number of pages `client.list` has served.
`pages` is the script of `client.list`: page `i` is `pages[i]`, a `none` page is a failed
call, and a cursor (of size 1) is returned for as long as a further page exists. -/
def scriptedEnv (pages : List (Option (List (List Nat)))) :
    Env Nat (String × String) String Unit (List Nat) where
  NewRequest := fun method path _ _ s =>
    if path = "/consumer_groups/%zz" then ((none, some "invalid URL escape"), s)
    else ((some (method, path), none), s)
  Do := fun _ req t v s =>
    if req = some ("GET", "/consumer_groups/missing") then ((v, some "404 Not Found"), s)
    else if req = some ("PUT", "/consumer_groups/taken") then ((v, some "409 Conflict"), s)
    else
      match t, v with
      | Target.consumerGroup, _ => ((⟨some "id-1", some "foo", []⟩, none), s)
      | Target.wrapped, _ =>
        if req = some ("GET", "/consumer_groups/bare") then ((⟨none⟩, none), s)
        else ((⟨some ⟨some "id-1", some "foo", []⟩⟩, none), s)
      | Target.nil, _ => (((), none), s)
  list := fun _ _ _ s =>
    match pages.get? s with
    | some (some data) =>
      ((data, if s + 1 < pages.length then some ⟨1, [], false⟩ else none, none), s + 1)
    | _ => (([], none, some "connection reset"), s + 1)
  isEmptyString := fun s => s == none || s == some ""
  MarshalJSON := fun m => (m, none)
  Unmarshal := fun b v =>
    match b with
    | [] => (v, some "unexpected end of JSON input")
    | n :: _ => (⟨none, some (if n = 1 then "foo1" else if n = 2 then "foo2" else "foo3"), []⟩,
        none)
  pageSize := 2

/-- The world before any call, against the scripted client. -/
def world0 : World Nat (String × String) Unit := ⟨0, []⟩

/-! ## The operations, path by path -/

section Paths

open ConsumerGroupService

variable {σ Req Err Ctx Raw : Type}

theorem Create.route_of_nil (cg : ConsumerGroup) (h : cg.ID = none) :
    Create.route cg = ("/consumer_groups", "POST") := by
  simp [Create.route, h]

theorem Create.route_of_some (cg : ConsumerGroup) (id : String) (h : cg.ID = some id) :
    Create.route cg = ("/consumer_groups/" ++ id, "PUT") := by
  simp only [Create.route, h, Prod.mk.injEq, and_true]
  rw [String.append_assoc]
  rfl

theorem Create_of_NewRequest_error (env : Env σ Req Err Ctx Raw) (ctx : Ctx)
    (cg : ConsumerGroup) (w : World σ Req Ctx) (req : Option Req) (e : Err) (s1 : σ)
    (hreq : env.NewRequest (Create.route cg).2 (Create.route cg).1 Iface.nil
      (Iface.consumerGroup cg) w.st = ((req, some e), s1)) :
    Create env ctx (some cg) w
      = (Outcome.returns (none, some (GoError.collaborator e)),
          ⟨s1, w.trace ++ [Call.NewRequest (Create.route cg).2 (Create.route cg).1 Iface.nil
            (Iface.consumerGroup cg)]⟩) := by
  simp only [Create, callNewRequest, hreq]

theorem Create_of_Do_error (env : Env σ Req Err Ctx Raw) (ctx : Ctx)
    (cg : ConsumerGroup) (w : World σ Req Ctx) (req : Option Req) (s1 : σ)
    (hreq : env.NewRequest (Create.route cg).2 (Create.route cg).1 Iface.nil
      (Iface.consumerGroup cg) w.st = ((req, none), s1))
    (v : ConsumerGroup) (e : Err) (s2 : σ)
    (hdo : env.Do ctx req Target.consumerGroup ConsumerGroup.zero s1 = ((v, some e), s2)) :
    Create env ctx (some cg) w
      = (Outcome.returns (none, some (GoError.collaborator e)),
          ⟨s2, w.trace ++ [Call.NewRequest (Create.route cg).2 (Create.route cg).1 Iface.nil
            (Iface.consumerGroup cg)] ++ [Call.Do ctx req Target.consumerGroup]⟩) := by
  simp only [Create, callNewRequest, callDo, hreq, hdo]

theorem Create_of_Do_ok (env : Env σ Req Err Ctx Raw) (ctx : Ctx)
    (cg : ConsumerGroup) (w : World σ Req Ctx) (req : Option Req) (s1 : σ)
    (hreq : env.NewRequest (Create.route cg).2 (Create.route cg).1 Iface.nil
      (Iface.consumerGroup cg) w.st = ((req, none), s1))
    (v : ConsumerGroup) (s2 : σ)
    (hdo : env.Do ctx req Target.consumerGroup ConsumerGroup.zero s1 = ((v, none), s2)) :
    Create env ctx (some cg) w
      = (Outcome.returns (some v, none),
          ⟨s2, w.trace ++ [Call.NewRequest (Create.route cg).2 (Create.route cg).1 Iface.nil
            (Iface.consumerGroup cg)] ++ [Call.Do ctx req Target.consumerGroup]⟩) := by
  simp only [Create, callNewRequest, callDo, hreq, hdo]

theorem Get_of_empty (env : Env σ Req Err Ctx Raw) (ctx : Ctx) (nameOrID : Option String)
    (w : World σ Req Ctx) (hid : env.isEmptyString nameOrID = true) :
    Get env ctx nameOrID w
      = (Outcome.returns
          (none, some (GoError.errorf "nameOrID cannot be nil for Get operation")), w) := by
  simp [Get, hid, fmtErrorf]

theorem Get_of_NewRequest_error (env : Env σ Req Err Ctx Raw) (ctx : Ctx) (id : String)
    (w : World σ Req Ctx) (hid : env.isEmptyString (some id) = false)
    (req : Option Req) (e : Err) (s1 : σ)
    (hreq : env.NewRequest "GET" ("/consumer_groups/" ++ id) Iface.nil Iface.nil w.st
      = ((req, some e), s1)) :
    Get env ctx (some id) w
      = (Outcome.returns (none, some (GoError.collaborator e)),
          ⟨s1, w.trace ++ [Call.NewRequest "GET" ("/consumer_groups/" ++ id) Iface.nil
            Iface.nil]⟩) := by
  simp [Get, callNewRequest, hid, hreq]

theorem Get_of_Do_error (env : Env σ Req Err Ctx Raw) (ctx : Ctx) (id : String)
    (w : World σ Req Ctx) (hid : env.isEmptyString (some id) = false)
    (req : Option Req) (s1 : σ)
    (hreq : env.NewRequest "GET" ("/consumer_groups/" ++ id) Iface.nil Iface.nil w.st
      = ((req, none), s1))
    (v : wrappedConsumerGroup) (e : Err) (s2 : σ)
    (hdo : env.Do ctx req Target.wrapped wrappedConsumerGroup.zero s1 = ((v, some e), s2)) :
    Get env ctx (some id) w
      = (Outcome.returns (none, some (GoError.collaborator e)),
          ⟨s2, w.trace ++ [Call.NewRequest "GET" ("/consumer_groups/" ++ id) Iface.nil
            Iface.nil] ++ [Call.Do ctx req Target.wrapped]⟩) := by
  simp [Get, callNewRequest, callDo, hid, hreq, hdo]

theorem Get_of_Do_ok (env : Env σ Req Err Ctx Raw) (ctx : Ctx) (id : String)
    (w : World σ Req Ctx) (hid : env.isEmptyString (some id) = false)
    (req : Option Req) (s1 : σ)
    (hreq : env.NewRequest "GET" ("/consumer_groups/" ++ id) Iface.nil Iface.nil w.st
      = ((req, none), s1))
    (v : wrappedConsumerGroup) (s2 : σ)
    (hdo : env.Do ctx req Target.wrapped wrappedConsumerGroup.zero s1 = ((v, none), s2)) :
    Get env ctx (some id) w
      = (Outcome.returns (v.ConsumerGroup, none),
          ⟨s2, w.trace ++ [Call.NewRequest "GET" ("/consumer_groups/" ++ id) Iface.nil
            Iface.nil] ++ [Call.Do ctx req Target.wrapped]⟩) := by
  simp [Get, callNewRequest, callDo, hid, hreq, hdo]

theorem Update_of_empty (env : Env σ Req Err Ctx Raw) (ctx : Ctx) (cg : ConsumerGroup)
    (w : World σ Req Ctx) (hid : env.isEmptyString cg.ID = true) :
    Update env ctx (some cg) w
      = (Outcome.returns
          (none, some (GoError.errorf "ID cannot be nil for Update operation")), w) := by
  simp [Update, hid, fmtErrorf]

theorem Update_of_NewRequest_error (env : Env σ Req Err Ctx Raw) (ctx : Ctx)
    (cg : ConsumerGroup) (id : String) (w : World σ Req Ctx) (hcg : cg.ID = some id)
    (hid : env.isEmptyString (some id) = false) (req : Option Req) (e : Err) (s1 : σ)
    (hreq : env.NewRequest "PATCH" ("/consumer_groups/" ++ id) Iface.nil
      (Iface.consumerGroup cg) w.st = ((req, some e), s1)) :
    Update env ctx (some cg) w
      = (Outcome.returns (none, some (GoError.collaborator e)),
          ⟨s1, w.trace ++ [Call.NewRequest "PATCH" ("/consumer_groups/" ++ id) Iface.nil
            (Iface.consumerGroup cg)]⟩) := by
  simp [Update, callNewRequest, hcg, hid, hreq]

theorem Update_of_Do_error (env : Env σ Req Err Ctx Raw) (ctx : Ctx)
    (cg : ConsumerGroup) (id : String) (w : World σ Req Ctx) (hcg : cg.ID = some id)
    (hid : env.isEmptyString (some id) = false) (req : Option Req) (s1 : σ)
    (hreq : env.NewRequest "PATCH" ("/consumer_groups/" ++ id) Iface.nil
      (Iface.consumerGroup cg) w.st = ((req, none), s1))
    (v : ConsumerGroup) (e : Err) (s2 : σ)
    (hdo : env.Do ctx req Target.consumerGroup ConsumerGroup.zero s1 = ((v, some e), s2)) :
    Update env ctx (some cg) w
      = (Outcome.returns (none, some (GoError.collaborator e)),
          ⟨s2, w.trace ++ [Call.NewRequest "PATCH" ("/consumer_groups/" ++ id) Iface.nil
            (Iface.consumerGroup cg)] ++ [Call.Do ctx req Target.consumerGroup]⟩) := by
  simp [Update, callNewRequest, callDo, hcg, hid, hreq, hdo]

theorem Update_of_Do_ok (env : Env σ Req Err Ctx Raw) (ctx : Ctx)
    (cg : ConsumerGroup) (id : String) (w : World σ Req Ctx) (hcg : cg.ID = some id)
    (hid : env.isEmptyString (some id) = false) (req : Option Req) (s1 : σ)
    (hreq : env.NewRequest "PATCH" ("/consumer_groups/" ++ id) Iface.nil
      (Iface.consumerGroup cg) w.st = ((req, none), s1))
    (v : ConsumerGroup) (s2 : σ)
    (hdo : env.Do ctx req Target.consumerGroup ConsumerGroup.zero s1 = ((v, none), s2)) :
    Update env ctx (some cg) w
      = (Outcome.returns (some v, none),
          ⟨s2, w.trace ++ [Call.NewRequest "PATCH" ("/consumer_groups/" ++ id) Iface.nil
            (Iface.consumerGroup cg)] ++ [Call.Do ctx req Target.consumerGroup]⟩) := by
  simp [Update, callNewRequest, callDo, hcg, hid, hreq, hdo]

theorem Delete_of_empty (env : Env σ Req Err Ctx Raw) (ctx : Ctx) (nameOrID : Option String)
    (w : World σ Req Ctx) (hid : env.isEmptyString nameOrID = true) :
    Delete env ctx nameOrID w
      = (Outcome.returns
          (some (GoError.errorf "nameOrID cannot be nil for Delete operation")), w) := by
  simp [Delete, hid, fmtErrorf]

theorem Delete_of_NewRequest_error (env : Env σ Req Err Ctx Raw) (ctx : Ctx) (id : String)
    (w : World σ Req Ctx) (hid : env.isEmptyString (some id) = false)
    (req : Option Req) (e : Err) (s1 : σ)
    (hreq : env.NewRequest "DELETE" ("/consumer_groups/" ++ id) Iface.nil Iface.nil w.st
      = ((req, some e), s1)) :
    Delete env ctx (some id) w
      = (Outcome.returns (some (GoError.collaborator e)),
          ⟨s1, w.trace ++ [Call.NewRequest "DELETE" ("/consumer_groups/" ++ id) Iface.nil
            Iface.nil]⟩) := by
  simp [Delete, callNewRequest, hid, hreq]

theorem Delete_of_Do (env : Env σ Req Err Ctx Raw) (ctx : Ctx) (id : String)
    (w : World σ Req Ctx) (hid : env.isEmptyString (some id) = false)
    (req : Option Req) (s1 : σ)
    (hreq : env.NewRequest "DELETE" ("/consumer_groups/" ++ id) Iface.nil Iface.nil w.st
      = ((req, none), s1))
    (e : Option Err) (s2 : σ)
    (hdo : env.Do ctx req Target.nil () s1 = (((), e), s2)) :
    Delete env ctx (some id) w
      = (Outcome.returns (e.map GoError.collaborator),
          ⟨s2, w.trace ++ [Call.NewRequest "DELETE" ("/consumer_groups/" ++ id) Iface.nil
            Iface.nil] ++ [Call.Do ctx req Target.nil]⟩) := by
  simp [Delete, callNewRequest, callDo, hid, hreq, hdo]

theorem Create_trace (env : Env σ Req Err Ctx Raw) (ctx : Ctx) (cg : ConsumerGroup)
    (w : World σ Req Ctx) :
    (Create env ctx (some cg) w).2.trace
      = w.trace ++ roundTripCalls env ctx (Create.route cg).2 (Create.route cg).1 Iface.nil
          (Iface.consumerGroup cg) Target.consumerGroup w := by
  rcases hreq : env.NewRequest (Create.route cg).2 (Create.route cg).1 Iface.nil
    (Iface.consumerGroup cg) w.st with ⟨⟨req, _ | e⟩, s1⟩
  · rcases hdo : env.Do ctx req Target.consumerGroup ConsumerGroup.zero s1
      with ⟨⟨v, _ | e⟩, s2⟩
    · rw [Create_of_Do_ok env ctx cg w req s1 hreq v s2 hdo]
      simp [roundTripCalls, hreq]
    · rw [Create_of_Do_error env ctx cg w req s1 hreq v e s2 hdo]
      simp [roundTripCalls, hreq]
  · rw [Create_of_NewRequest_error env ctx cg w req e s1 hreq]
    simp [roundTripCalls, hreq]

theorem Get_trace (env : Env σ Req Err Ctx Raw) (ctx : Ctx) (id : String)
    (w : World σ Req Ctx) (hid : env.isEmptyString (some id) = false) :
    (Get env ctx (some id) w).2.trace
      = w.trace ++ roundTripCalls env ctx "GET" ("/consumer_groups/" ++ id) Iface.nil
          Iface.nil Target.wrapped w := by
  rcases hreq : env.NewRequest "GET" ("/consumer_groups/" ++ id) Iface.nil Iface.nil w.st
    with ⟨⟨req, _ | e⟩, s1⟩
  · rcases hdo : env.Do ctx req Target.wrapped wrappedConsumerGroup.zero s1
      with ⟨⟨v, _ | e⟩, s2⟩
    · rw [Get_of_Do_ok env ctx id w hid req s1 hreq v s2 hdo]
      simp [roundTripCalls, hreq]
    · rw [Get_of_Do_error env ctx id w hid req s1 hreq v e s2 hdo]
      simp [roundTripCalls, hreq]
  · rw [Get_of_NewRequest_error env ctx id w hid req e s1 hreq]
    simp [roundTripCalls, hreq]

theorem Update_trace (env : Env σ Req Err Ctx Raw) (ctx : Ctx) (cg : ConsumerGroup)
    (id : String) (w : World σ Req Ctx) (hcg : cg.ID = some id)
    (hid : env.isEmptyString (some id) = false) :
    (Update env ctx (some cg) w).2.trace
      = w.trace ++ roundTripCalls env ctx "PATCH" ("/consumer_groups/" ++ id) Iface.nil
          (Iface.consumerGroup cg) Target.consumerGroup w := by
  rcases hreq : env.NewRequest "PATCH" ("/consumer_groups/" ++ id) Iface.nil
    (Iface.consumerGroup cg) w.st with ⟨⟨req, _ | e⟩, s1⟩
  · rcases hdo : env.Do ctx req Target.consumerGroup ConsumerGroup.zero s1
      with ⟨⟨v, _ | e⟩, s2⟩
    · rw [Update_of_Do_ok env ctx cg id w hcg hid req s1 hreq v s2 hdo]
      simp [roundTripCalls, hreq]
    · rw [Update_of_Do_error env ctx cg id w hcg hid req s1 hreq v e s2 hdo]
      simp [roundTripCalls, hreq]
  · rw [Update_of_NewRequest_error env ctx cg id w hcg hid req e s1 hreq]
    simp [roundTripCalls, hreq]

theorem Delete_trace (env : Env σ Req Err Ctx Raw) (ctx : Ctx) (id : String)
    (w : World σ Req Ctx) (hid : env.isEmptyString (some id) = false) :
    (Delete env ctx (some id) w).2.trace
      = w.trace ++ roundTripCalls env ctx "DELETE" ("/consumer_groups/" ++ id) Iface.nil
          Iface.nil Target.nil w := by
  rcases hreq : env.NewRequest "DELETE" ("/consumer_groups/" ++ id) Iface.nil Iface.nil w.st
    with ⟨⟨req, _ | e⟩, s1⟩
  · rcases hdo : env.Do ctx req Target.nil () s1 with ⟨⟨v, e⟩, s2⟩
    rw [Delete_of_Do env ctx id w hid req s1 hreq e s2 hdo]
    simp [roundTripCalls, hreq]
  · rw [Delete_of_NewRequest_error env ctx id w hid req e s1 hreq]
    simp [roundTripCalls, hreq]

theorem roundTripCalls_shape (env : Env σ Req Err Ctx Raw) (ctx : Ctx) (method path : String)
    (qs body : Iface) (t : Target) (w : World σ Req Ctx) :
    ∃ rest, roundTripCalls env ctx method path qs body t w
        = Call.NewRequest method path qs body :: rest
      ∧ rest.length ≤ 1 ∧ ∀ c ∈ rest, ∃ req, c = Call.Do ctx req t := by
  rcases hreq : env.NewRequest method path qs body w.st with ⟨⟨req, _ | e⟩, s1⟩
  · exact ⟨[Call.Do ctx req t], by simp [roundTripCalls, hreq]⟩
  · exact ⟨[], by simp [roundTripCalls, hreq]⟩

theorem Get_no_errorf (env : Env σ Req Err Ctx Raw) (ctx : Ctx) (nameOrID : Option String)
    (w : World σ Req Ctx) (hid : env.isEmptyString nameOrID = false)
    (r : Option ConsumerGroup) (msg : String) :
    (Get env ctx nameOrID w).1 ≠ Outcome.returns (r, some (GoError.errorf msg)) := by
  cases nameOrID with
  | none => simp [Get, hid]
  | some id =>
    rcases hreq : env.NewRequest "GET" ("/consumer_groups/" ++ id) Iface.nil Iface.nil w.st
      with ⟨⟨req, _ | e⟩, s1⟩
    · rcases hdo : env.Do ctx req Target.wrapped wrappedConsumerGroup.zero s1
        with ⟨⟨v, _ | e⟩, s2⟩
      · rw [Get_of_Do_ok env ctx id w hid req s1 hreq v s2 hdo]; simp
      · rw [Get_of_Do_error env ctx id w hid req s1 hreq v e s2 hdo]; simp
    · rw [Get_of_NewRequest_error env ctx id w hid req e s1 hreq]; simp

theorem Delete_no_errorf (env : Env σ Req Err Ctx Raw) (ctx : Ctx)
    (nameOrID : Option String) (w : World σ Req Ctx)
    (hid : env.isEmptyString nameOrID = false) (msg : String) :
    (Delete env ctx nameOrID w).1 ≠ Outcome.returns (some (GoError.errorf msg)) := by
  cases nameOrID with
  | none => simp [Delete, hid]
  | some id =>
    rcases hreq : env.NewRequest "DELETE" ("/consumer_groups/" ++ id) Iface.nil Iface.nil
      w.st with ⟨⟨req, _ | e⟩, s1⟩
    · rcases hdo : env.Do ctx req Target.nil () s1 with ⟨⟨v, e⟩, s2⟩
      rw [Delete_of_Do env ctx id w hid req s1 hreq e s2 hdo]
      cases e <;> simp
    · rw [Delete_of_NewRequest_error env ctx id w hid req e s1 hreq]; simp

theorem Update_no_errorf (env : Env σ Req Err Ctx Raw) (ctx : Ctx) (cg : ConsumerGroup)
    (w : World σ Req Ctx) (hid : env.isEmptyString cg.ID = false)
    (r : Option ConsumerGroup) (msg : String) :
    (Update env ctx (some cg) w).1 ≠ Outcome.returns (r, some (GoError.errorf msg)) := by
  cases hcg : cg.ID with
  | none =>
    rw [hcg] at hid
    simp [Update, hid, hcg]
  | some id =>
    rw [hcg] at hid
    rcases hreq : env.NewRequest "PATCH" ("/consumer_groups/" ++ id) Iface.nil
      (Iface.consumerGroup cg) w.st with ⟨⟨req, _ | e⟩, s1⟩
    · rcases hdo : env.Do ctx req Target.consumerGroup ConsumerGroup.zero s1
        with ⟨⟨v, _ | e⟩, s2⟩
      · rw [Update_of_Do_ok env ctx cg id w hcg hid req s1 hreq v s2 hdo]; simp
      · rw [Update_of_Do_error env ctx cg id w hcg hid req s1 hreq v e s2 hdo]; simp
    · rw [Update_of_NewRequest_error env ctx cg id w hcg hid req e s1 hreq]; simp

theorem roundTripCalls_count_Do (env : Env σ Req Err Ctx Raw) (ctx : Ctx)
    (method path : String) (qs body : Iface) (t : Target) (w : World σ Req Ctx) :
    List.countP Call.isDo (roundTripCalls env ctx method path qs body t w) ≤ 1 := by
  rcases hreq : env.NewRequest method path qs body w.st with ⟨⟨req, _ | e⟩, s1⟩
  · simp [roundTripCalls, hreq, List.countP_cons, Call.isDo]
  · simp [roundTripCalls, hreq, List.countP_cons, Call.isDo]

theorem Create_count_Do (env : Env σ Req Err Ctx Raw) (ctx : Ctx)
    (consumerGroup : Option ConsumerGroup) (w : World σ Req Ctx) :
    List.countP Call.isDo (Create env ctx consumerGroup w).2.trace
      ≤ List.countP Call.isDo w.trace + 1 := by
  cases consumerGroup with
  | none => simp [Create]
  | some cg =>
    rw [Create_trace, List.countP_append]
    exact Nat.add_le_add_left (roundTripCalls_count_Do _ _ _ _ _ _ _ _) _

theorem Get_count_Do (env : Env σ Req Err Ctx Raw) (ctx : Ctx)
    (nameOrID : Option String) (w : World σ Req Ctx) :
    List.countP Call.isDo (Get env ctx nameOrID w).2.trace
      ≤ List.countP Call.isDo w.trace + 1 := by
  cases hid : env.isEmptyString nameOrID with
  | true => rw [Get_of_empty env ctx nameOrID w hid]; simp
  | false =>
    cases nameOrID with
    | none => simp [Get, hid]
    | some id =>
      rw [Get_trace env ctx id w hid, List.countP_append]
      exact Nat.add_le_add_left (roundTripCalls_count_Do _ _ _ _ _ _ _ _) _

theorem Update_count_Do (env : Env σ Req Err Ctx Raw) (ctx : Ctx)
    (consumerGroup : Option ConsumerGroup) (w : World σ Req Ctx) :
    List.countP Call.isDo (Update env ctx consumerGroup w).2.trace
      ≤ List.countP Call.isDo w.trace + 1 := by
  cases consumerGroup with
  | none => simp [Update]
  | some cg =>
    cases hid : env.isEmptyString cg.ID with
    | true => rw [Update_of_empty env ctx cg w hid]; simp
    | false =>
      cases hcg : cg.ID with
      | none =>
        rw [hcg] at hid
        simp [Update, hid, hcg]
      | some id =>
        rw [hcg] at hid
        rw [Update_trace env ctx cg id w hcg hid, List.countP_append]
        exact Nat.add_le_add_left (roundTripCalls_count_Do _ _ _ _ _ _ _ _) _

theorem Delete_count_Do (env : Env σ Req Err Ctx Raw) (ctx : Ctx)
    (nameOrID : Option String) (w : World σ Req Ctx) :
    List.countP Call.isDo (Delete env ctx nameOrID w).2.trace
      ≤ List.countP Call.isDo w.trace + 1 := by
  cases hid : env.isEmptyString nameOrID with
  | true => rw [Delete_of_empty env ctx nameOrID w hid]; simp
  | false =>
    cases nameOrID with
    | none => simp [Delete, hid]
    | some id =>
      rw [Delete_trace env ctx id w hid, List.countP_append]
      exact Nat.add_le_add_left (roundTripCalls_count_Do _ _ _ _ _ _ _ _) _

theorem roundTripCalls_one_request (env : Env σ Req Err Ctx Raw) (ctx : Ctx)
    (method path : String) (qs body : Iface) (t : Target) (w : World σ Req Ctx) :
    ∃ rest, roundTripCalls env ctx method path qs body t w
        = Call.NewRequest method path qs body :: rest
      ∧ rest.length ≤ 1 ∧ ∀ c ∈ rest, c.isNewRequest = false := by
  obtain ⟨rest, h1, h2, h3⟩ := roundTripCalls_shape env ctx method path qs body t w
  refine ⟨rest, h1, h2, ?_⟩
  intro c hc
  obtain ⟨req, rfl⟩ := h3 c hc
  rfl

theorem Get_of_nil_error (env : Env σ Req Err Ctx Raw) (ctx : Ctx)
    (nameOrID : Option String) (w w1 : World σ Req Ctx) (r : Option ConsumerGroup)
    (h : Get env ctx nameOrID w = (Outcome.returns (r, none), w1)) :
    ∃ id req s1 v s2, nameOrID = some id
      ∧ env.NewRequest "GET" ("/consumer_groups/" ++ id) Iface.nil Iface.nil w.st
          = ((req, none), s1)
      ∧ env.Do ctx req Target.wrapped wrappedConsumerGroup.zero s1 = ((v, none), s2)
      ∧ r = v.ConsumerGroup := by
  cases hid : env.isEmptyString nameOrID with
  | true => rw [Get_of_empty env ctx nameOrID w hid] at h; simp at h
  | false =>
    cases nameOrID with
    | none => simp [Get, hid] at h
    | some id =>
      rcases hreq : env.NewRequest "GET" ("/consumer_groups/" ++ id) Iface.nil Iface.nil
        w.st with ⟨⟨req, _ | e⟩, s1⟩
      · rcases hdo : env.Do ctx req Target.wrapped wrappedConsumerGroup.zero s1
          with ⟨⟨v, _ | e⟩, s2⟩
        · rw [Get_of_Do_ok env ctx id w hid req s1 hreq v s2 hdo] at h
          simp only [Prod.mk.injEq, Outcome.returns.injEq, and_true] at h
          exact ⟨id, req, s1, v, s2, rfl, hreq, hdo, h.1.symm⟩
        · rw [Get_of_Do_error env ctx id w hid req s1 hreq v e s2 hdo] at h
          simp at h
      · rw [Get_of_NewRequest_error env ctx id w hid req e s1 hreq] at h
        simp at h

theorem Create_nonnil_of_nil_error (env : Env σ Req Err Ctx Raw) (ctx : Ctx)
    (consumerGroup : Option ConsumerGroup) (w w1 : World σ Req Ctx)
    (r : Option ConsumerGroup)
    (h : Create env ctx consumerGroup w = (Outcome.returns (r, none), w1)) : r ≠ none := by
  cases consumerGroup with
  | none => simp [Create] at h
  | some cg =>
    rcases hreq : env.NewRequest (Create.route cg).2 (Create.route cg).1 Iface.nil
      (Iface.consumerGroup cg) w.st with ⟨⟨req, _ | e⟩, s1⟩
    · rcases hdo : env.Do ctx req Target.consumerGroup ConsumerGroup.zero s1
        with ⟨⟨v, _ | e⟩, s2⟩
      · rw [Create_of_Do_ok env ctx cg w req s1 hreq v s2 hdo] at h
        simp only [Prod.mk.injEq, Outcome.returns.injEq, and_true] at h
        rw [← h.1]; simp
      · rw [Create_of_Do_error env ctx cg w req s1 hreq v e s2 hdo] at h
        simp at h
    · rw [Create_of_NewRequest_error env ctx cg w req e s1 hreq] at h
      simp at h

theorem Update_nonnil_of_nil_error (env : Env σ Req Err Ctx Raw) (ctx : Ctx)
    (consumerGroup : Option ConsumerGroup) (w w1 : World σ Req Ctx)
    (r : Option ConsumerGroup)
    (h : Update env ctx consumerGroup w = (Outcome.returns (r, none), w1)) : r ≠ none := by
  cases consumerGroup with
  | none => simp [Update] at h
  | some cg =>
    cases hid : env.isEmptyString cg.ID with
    | true => rw [Update_of_empty env ctx cg w hid] at h; simp at h
    | false =>
      cases hcg : cg.ID with
      | none =>
        rw [hcg] at hid
        simp [Update, hid, hcg] at h
      | some id =>
        rw [hcg] at hid
        rcases hreq : env.NewRequest "PATCH" ("/consumer_groups/" ++ id) Iface.nil
          (Iface.consumerGroup cg) w.st with ⟨⟨req, _ | e⟩, s1⟩
        · rcases hdo : env.Do ctx req Target.consumerGroup ConsumerGroup.zero s1
            with ⟨⟨v, _ | e⟩, s2⟩
          · rw [Update_of_Do_ok env ctx cg id w hcg hid req s1 hreq v s2 hdo] at h
            simp only [Prod.mk.injEq, Outcome.returns.injEq, and_true] at h
            rw [← h.1]; simp
          · rw [Update_of_Do_error env ctx cg id w hcg hid req s1 hreq v e s2 hdo] at h
            simp at h
        · rw [Update_of_NewRequest_error env ctx cg id w hcg hid req e s1 hreq] at h
          simp at h

end Paths

/-! ## The list operations, path by path -/

section ListPaths

variable {σ Req Err Ctx Raw : Type}

theorem ListLoop_of_decodeError_none (env : Env σ Req Err Ctx Raw) (next : Option ListOpt)
    (data : Slice Raw) (h : ∀ x ∈ data, decodeError env x = none)
    (consumerGroups : Slice ConsumerGroup) :
    ConsumerGroupService.ListLoop env next data consumerGroups
      = (consumerGroups ++ data.map (decoded env), next, none) := by
  induction data generalizing consumerGroups with
  | nil => simp [ConsumerGroupService.ListLoop]
  | cons x rest ih =>
    have hx : decodeError env x = none := h x (List.mem_cons_self x rest)
    have hrest : ∀ y ∈ rest, decodeError env y = none :=
      fun y hy => h y (List.mem_cons_of_mem x hy)
    rcases hm : env.MarshalJSON x with ⟨b, _ | e⟩
    · rcases hu : env.Unmarshal b ConsumerGroup.zero with ⟨cg, _ | e⟩
      · simp [ConsumerGroupService.ListLoop, hm, hu, ih hrest, decoded]
      · simp [decodeError, hm, hu] at hx
    · simp [decodeError, hm] at hx

theorem ListLoop_of_decodeError_some (env : Env σ Req Err Ctx Raw) (next : Option ListOpt)
    (pre : Slice Raw) (x : Raw) (post : Slice Raw) (e : Err)
    (hpre : ∀ y ∈ pre, decodeError env y = none) (hx : decodeError env x = some e)
    (consumerGroups : Slice ConsumerGroup) :
    ConsumerGroupService.ListLoop env next (pre ++ x :: post) consumerGroups
      = ([], none, some (GoError.collaborator e)) := by
  induction pre generalizing consumerGroups with
  | nil =>
    rcases hm : env.MarshalJSON x with ⟨b, _ | e1⟩
    · rcases hu : env.Unmarshal b ConsumerGroup.zero with ⟨cg, _ | e2⟩
      · simp [decodeError, hm, hu] at hx
      · simp only [decodeError, hm, hu, Option.some.injEq] at hx
        simp [ConsumerGroupService.ListLoop, hm, hu, hx]
    · simp only [decodeError, hm, Option.some.injEq] at hx
      simp [ConsumerGroupService.ListLoop, hm, hx]
  | cons y rest ih =>
    have hy : decodeError env y = none := hpre y (List.mem_cons_self y rest)
    have hrest : ∀ z ∈ rest, decodeError env z = none :=
      fun z hz => hpre z (List.mem_cons_of_mem y hz)
    rcases hm : env.MarshalJSON y with ⟨b, _ | e1⟩
    · rcases hu : env.Unmarshal b ConsumerGroup.zero with ⟨cg, _ | e2⟩
      · simp [ConsumerGroupService.ListLoop, hm, hu, ih hrest]
      · simp [decodeError, hm, hu] at hy
    · simp [decodeError, hm] at hy

theorem List_of_list_error (env : Env σ Req Err Ctx Raw) (ctx : Ctx)
    (opt : Option ListOpt) (w : World σ Req Ctx) (d : Slice Raw) (n : Option ListOpt)
    (e : Err) (s1 : σ)
    (hlist : env.list ctx "/consumer_groups" opt w.st = ((d, n, some e), s1)) :
    ConsumerGroupService.List env ctx opt w
      = (([], none, some (GoError.collaborator e)),
          ⟨s1, w.trace ++ [Call.list ctx "/consumer_groups" opt]⟩) := by
  simp only [ConsumerGroupService.List, callList, hlist]

theorem List_of_list_ok (env : Env σ Req Err Ctx Raw) (ctx : Ctx)
    (opt : Option ListOpt) (w : World σ Req Ctx) (data : Slice Raw) (next : Option ListOpt)
    (s1 : σ)
    (hlist : env.list ctx "/consumer_groups" opt w.st = ((data, next, none), s1)) :
    ConsumerGroupService.List env ctx opt w
      = (ConsumerGroupService.ListLoop env next data [],
          ⟨s1, w.trace ++ [Call.list ctx "/consumer_groups" opt]⟩) := by
  simp only [ConsumerGroupService.List, callList, hlist]

theorem List_trace (env : Env σ Req Err Ctx Raw) (ctx : Ctx) (opt : Option ListOpt)
    (w : World σ Req Ctx) :
    (ConsumerGroupService.List env ctx opt w).2.trace
      = w.trace ++ [Call.list ctx "/consumer_groups" opt] := by
  rcases hlist : env.list ctx "/consumer_groups" opt w.st with ⟨⟨d, n, _ | e⟩, s1⟩
  · rw [List_of_list_ok env ctx opt w d n s1 hlist]
  · rw [List_of_list_error env ctx opt w d n e s1 hlist]

theorem Pages_trace (env : Env σ Req Err Ctx Raw) (ctx : Ctx)
    (pages : List (Slice ConsumerGroup × Option ListOpt)) (w : World σ Req Ctx)
    (opt : Option ListOpt) (w1 : World σ Req Ctx) (opt1 : Option ListOpt)
    (h : Pages env ctx w opt pages w1 opt1) :
    w1.trace = w.trace ++ (cursorsUsed opt pages).map (Call.list ctx "/consumer_groups") := by
  induction pages generalizing w opt with
  | nil =>
    obtain ⟨rfl, -⟩ := h
    simp [cursorsUsed]
  | cons page rest ih =>
    obtain ⟨o, rfl, wn, hl, hrest⟩ := h
    rw [ih wn page.2 hrest]
    have ht := List_trace env ctx (some o) w
    rw [hl] at ht
    simp only at ht
    rw [ht]
    simp [cursorsUsed]

theorem ListAllLoop_of_Pages (env : Env σ Req Err Ctx Raw) (ctx : Ctx)
    (pages : List (Slice ConsumerGroup × Option ListOpt)) (w : World σ Req Ctx)
    (opt : Option ListOpt) (w1 : World σ Req Ctx)
    (h : Pages env ctx w opt pages w1 none)
    (consumerGroups : Slice ConsumerGroup) (fuel : Nat) (hfuel : pages.length < fuel) :
    ConsumerGroupService.ListAllLoop env ctx fuel consumerGroups opt w
      = some ((consumerGroups ++ (pages.map Prod.fst).flatten, none), w1) := by
  induction pages generalizing w opt consumerGroups fuel with
  | nil =>
    obtain ⟨rfl, rfl⟩ := h
    cases fuel with
    | zero => simp at hfuel
    | succ n => simp [ConsumerGroupService.ListAllLoop]
  | cons page rest ih =>
    obtain ⟨o, rfl, wn, hl, hrest⟩ := h
    cases fuel with
    | zero => simp at hfuel
    | succ n =>
      have hn : rest.length < n := by simpa using hfuel
      simp only [ConsumerGroupService.ListAllLoop, hl]
      rw [ih wn page.2 hrest (consumerGroups ++ page.1) n hn]
      simp

theorem ListAllLoop_of_Pages_error (env : Env σ Req Err Ctx Raw) (ctx : Ctx)
    (pages : List (Slice ConsumerGroup × Option ListOpt)) (w : World σ Req Ctx)
    (opt : Option ListOpt) (w1 : World σ Req Ctx) (o : ListOpt)
    (h : Pages env ctx w opt pages w1 (some o))
    (d : Slice ConsumerGroup) (n : Option ListOpt) (e : GoError Err) (w2 : World σ Req Ctx)
    (hfail : ConsumerGroupService.List env ctx (some o) w1 = ((d, n, some e), w2))
    (consumerGroups : Slice ConsumerGroup) (fuel : Nat) (hfuel : pages.length < fuel) :
    ConsumerGroupService.ListAllLoop env ctx fuel consumerGroups opt w
      = some (([], some e), w2) := by
  induction pages generalizing w opt consumerGroups fuel with
  | nil =>
    obtain ⟨rfl, rfl⟩ := h
    cases fuel with
    | zero => simp at hfuel
    | succ k => simp [ConsumerGroupService.ListAllLoop, hfail]
  | cons page rest ih =>
    obtain ⟨o1, rfl, wn, hl, hrest⟩ := h
    cases fuel with
    | zero => simp at hfuel
    | succ k =>
      have hk : rest.length < k := by simpa using hfuel
      simp only [ConsumerGroupService.ListAllLoop, hl]
      exact ih wn page.2 hrest (consumerGroups ++ page.1) k hk

theorem cursorsUsed_length (opt : Option ListOpt)
    (pages : List (Slice ConsumerGroup × Option ListOpt)) :
    (cursorsUsed opt pages).length = pages.length := by
  induction pages generalizing opt with
  | nil => rfl
  | cons page rest ih => simp [cursorsUsed, ih]

end ListPaths

/-! ## The claims -/

section Claims

open ConsumerGroupService

variable {σ Req Err Ctx Raw : Type}

/-- C1: `Create` chooses the request from the ID field alone. For a consumer group whose
ID is nil the calls it makes start with `NewRequest("POST", "/consumer_groups", nil,
consumerGroup)`; for one whose ID is any string `id` (the empty string included) they
start with `NewRequest("PUT", "/consumer_groups/" + id, nil, consumerGroup)`. In both
cases no other call of `NewRequest` follows: at most one call follows, a `Do`. -/
theorem Create_request_from_ID (env : Env σ Req Err Ctx Raw) (ctx : Ctx)
    (cg : ConsumerGroup) (w : World σ Req Ctx) :
    (cg.ID = none → ∃ rest, (Create env ctx (some cg) w).2.trace
        = w.trace ++ Call.NewRequest "POST" "/consumer_groups" Iface.nil
            (Iface.consumerGroup cg) :: rest
        ∧ rest.length ≤ 1 ∧ ∀ c ∈ rest, c.isNewRequest = false) ∧
    (∀ id, cg.ID = some id → ∃ rest, (Create env ctx (some cg) w).2.trace
        = w.trace ++ Call.NewRequest "PUT" ("/consumer_groups/" ++ id) Iface.nil
            (Iface.consumerGroup cg) :: rest
        ∧ rest.length ≤ 1 ∧ ∀ c ∈ rest, c.isNewRequest = false) := by
  have key : ∃ rest, (Create env ctx (some cg) w).2.trace
        = w.trace ++ Call.NewRequest (Create.route cg).2 (Create.route cg).1 Iface.nil
            (Iface.consumerGroup cg) :: rest
        ∧ rest.length ≤ 1 ∧ ∀ c ∈ rest, c.isNewRequest = false := by
    obtain ⟨rest, h1, h2, h3⟩ := roundTripCalls_shape env ctx (Create.route cg).2
      (Create.route cg).1 Iface.nil (Iface.consumerGroup cg) Target.consumerGroup w
    refine ⟨rest, ?_, h2, ?_⟩
    · rw [Create_trace, h1]
    · intro c hc
      obtain ⟨req, rfl⟩ := h3 c hc
      rfl
  constructor
  · intro h
    rw [Create.route_of_nil cg h] at key
    exact key
  · intro id h
    rw [Create.route_of_some cg id h] at key
    exact key

/-- Witness of C1: a consumer group without ID is posted, one whose ID is the empty
string is put at "/consumer_groups/". -/
theorem Create_request_from_ID_witness :
    (∃ rest, (Create (scriptedEnv []) () (some ⟨none, some "foo", []⟩) world0).2.trace
        = world0.trace ++ Call.NewRequest "POST" "/consumer_groups" Iface.nil
            (Iface.consumerGroup ⟨none, some "foo", []⟩) :: rest
        ∧ rest.length ≤ 1 ∧ ∀ c ∈ rest, c.isNewRequest = false) ∧
    (∃ rest, (Create (scriptedEnv []) () (some ⟨some "", some "foo", []⟩) world0).2.trace
        = world0.trace ++ Call.NewRequest "PUT" ("/consumer_groups/" ++ "") Iface.nil
            (Iface.consumerGroup ⟨some "", some "foo", []⟩) :: rest
        ∧ rest.length ≤ 1 ∧ ∀ c ∈ rest, c.isNewRequest = false) :=
  ⟨(Create_request_from_ID (scriptedEnv []) () ⟨none, some "foo", []⟩ world0).1 rfl,
   (Create_request_from_ID (scriptedEnv []) () ⟨some "", some "foo", []⟩ world0).2 "" rfl⟩

/-- C2: identifier validation. When `isEmptyString` says the identifier is empty, `Get`
returns (nil, error), `Delete` returns an error and `Update` (on `consumerGroup.ID`)
returns (nil, error), the error being the one `fmt.Errorf` makes from the message of the
operation, and the world is unchanged: neither `NewRequest` nor `Do` is called.
Conversely, when `isEmptyString` says the identifier is not empty, no error made by
`fmt.Errorf` is returned. -/
theorem identifier_validation (env : Env σ Req Err Ctx Raw) (ctx : Ctx)
    (w : World σ Req Ctx) :
    (∀ nameOrID, env.isEmptyString nameOrID = true →
      Get env ctx nameOrID w = (Outcome.returns
        (none, some (GoError.errorf "nameOrID cannot be nil for Get operation")), w) ∧
      Delete env ctx nameOrID w = (Outcome.returns
        (some (GoError.errorf "nameOrID cannot be nil for Delete operation")), w)) ∧
    (∀ cg : ConsumerGroup, env.isEmptyString cg.ID = true →
      Update env ctx (some cg) w = (Outcome.returns
        (none, some (GoError.errorf "ID cannot be nil for Update operation")), w)) ∧
    (∀ nameOrID, env.isEmptyString nameOrID = false → ∀ r msg,
      (Get env ctx nameOrID w).1 ≠ Outcome.returns (r, some (GoError.errorf msg)) ∧
      (Delete env ctx nameOrID w).1 ≠ Outcome.returns (some (GoError.errorf msg))) ∧
    (∀ cg : ConsumerGroup, env.isEmptyString cg.ID = false → ∀ r msg,
      (Update env ctx (some cg) w).1 ≠ Outcome.returns (r, some (GoError.errorf msg))) :=
  ⟨fun nameOrID h => ⟨Get_of_empty env ctx nameOrID w h, Delete_of_empty env ctx nameOrID w h⟩,
   fun cg h => Update_of_empty env ctx cg w h,
   fun nameOrID h r msg =>
     ⟨Get_no_errorf env ctx nameOrID w h r msg, Delete_no_errorf env ctx nameOrID w h msg⟩,
   fun cg h r msg => Update_no_errorf env ctx cg w h r msg⟩

/-- Witness of C2: the nil pointer and the pointer to the empty string are refused, the
identifier "foo" is not. -/
theorem identifier_validation_witness :
    (Get (scriptedEnv []) () none world0 = (Outcome.returns
        (none, some (GoError.errorf "nameOrID cannot be nil for Get operation")), world0) ∧
      Delete (scriptedEnv []) () none world0 = (Outcome.returns
        (some (GoError.errorf "nameOrID cannot be nil for Delete operation")), world0)) ∧
    Update (scriptedEnv []) () (some ⟨some "", some "foo", []⟩) world0 = (Outcome.returns
        (none, some (GoError.errorf "ID cannot be nil for Update operation")), world0) ∧
    ((Get (scriptedEnv []) () (some "foo") world0).1
        ≠ Outcome.returns (none, some (GoError.errorf "nameOrID cannot be nil for Get operation")) ∧
      (Delete (scriptedEnv []) () (some "foo") world0).1
        ≠ Outcome.returns (some (GoError.errorf "nameOrID cannot be nil for Get operation"))) ∧
    (Update (scriptedEnv []) () (some ⟨some "foo", none, []⟩) world0).1
        ≠ Outcome.returns (none, some (GoError.errorf "ID cannot be nil for Update operation")) :=
  ⟨(identifier_validation (scriptedEnv []) () world0).1 none rfl,
   (identifier_validation (scriptedEnv []) () world0).2.1 ⟨some "", some "foo", []⟩ rfl,
   (identifier_validation (scriptedEnv []) () world0).2.2.1 (some "foo") rfl none _,
   (identifier_validation (scriptedEnv []) () world0).2.2.2 ⟨some "foo", none, []⟩ rfl none _⟩

/-- C3: request shape of `Get`, `Update` and `Delete`. For an identifier `s` that
`isEmptyString` says is not empty, the calls `Get` makes start with
`NewRequest("GET", "/consumer_groups/" + s, nil, nil)`, those of `Delete` with
`NewRequest("DELETE", "/consumer_groups/" + s, nil, nil)`, and those of `Update` on a
consumer group whose ID is `s` with `NewRequest("PATCH", "/consumer_groups/" + s, nil,
consumerGroup)`; no other call of `NewRequest` follows. The path is the prefix followed
by `s` itself. -/
theorem request_shape (env : Env σ Req Err Ctx Raw) (ctx : Ctx) (w : World σ Req Ctx)
    (s : String) (hs : env.isEmptyString (some s) = false) :
    (∃ rest, (Get env ctx (some s) w).2.trace
        = w.trace ++ Call.NewRequest "GET" ("/consumer_groups/" ++ s) Iface.nil Iface.nil
            :: rest
        ∧ rest.length ≤ 1 ∧ ∀ c ∈ rest, c.isNewRequest = false) ∧
    (∃ rest, (Delete env ctx (some s) w).2.trace
        = w.trace ++ Call.NewRequest "DELETE" ("/consumer_groups/" ++ s) Iface.nil Iface.nil
            :: rest
        ∧ rest.length ≤ 1 ∧ ∀ c ∈ rest, c.isNewRequest = false) ∧
    (∀ cg : ConsumerGroup, cg.ID = some s → ∃ rest, (Update env ctx (some cg) w).2.trace
        = w.trace ++ Call.NewRequest "PATCH" ("/consumer_groups/" ++ s) Iface.nil
            (Iface.consumerGroup cg) :: rest
        ∧ rest.length ≤ 1 ∧ ∀ c ∈ rest, c.isNewRequest = false) := by
  refine ⟨?_, ?_, ?_⟩
  · rw [Get_trace env ctx s w hs]
    obtain ⟨rest, h1, h2⟩ := roundTripCalls_one_request env ctx "GET"
      ("/consumer_groups/" ++ s) Iface.nil Iface.nil Target.wrapped w
    exact ⟨rest, by rw [h1], h2⟩
  · rw [Delete_trace env ctx s w hs]
    obtain ⟨rest, h1, h2⟩ := roundTripCalls_one_request env ctx "DELETE"
      ("/consumer_groups/" ++ s) Iface.nil Iface.nil Target.nil w
    exact ⟨rest, by rw [h1], h2⟩
  · intro cg hcg
    rw [Update_trace env ctx cg s w hcg hs]
    obtain ⟨rest, h1, h2⟩ := roundTripCalls_one_request env ctx "PATCH"
      ("/consumer_groups/" ++ s) Iface.nil (Iface.consumerGroup cg) Target.consumerGroup w
    exact ⟨rest, by rw [h1], h2⟩

/-- Witness of C3: the identifier " a/b " (blanks and a slash) goes into the path as it
is. -/
theorem request_shape_witness :
    (∃ rest, (Get (scriptedEnv []) () (some " a/b ") world0).2.trace
        = world0.trace ++ Call.NewRequest "GET" ("/consumer_groups/" ++ " a/b ") Iface.nil
            Iface.nil :: rest
        ∧ rest.length ≤ 1 ∧ ∀ c ∈ rest, c.isNewRequest = false) ∧
    (∃ rest, (Delete (scriptedEnv []) () (some " a/b ") world0).2.trace
        = world0.trace ++ Call.NewRequest "DELETE" ("/consumer_groups/" ++ " a/b ")
            Iface.nil Iface.nil :: rest
        ∧ rest.length ≤ 1 ∧ ∀ c ∈ rest, c.isNewRequest = false) ∧
    (∃ rest, (Update (scriptedEnv []) () (some ⟨some " a/b ", none, []⟩) world0).2.trace
        = world0.trace ++ Call.NewRequest "PATCH" ("/consumer_groups/" ++ " a/b ") Iface.nil
            (Iface.consumerGroup ⟨some " a/b ", none, []⟩) :: rest
        ∧ rest.length ≤ 1 ∧ ∀ c ∈ rest, c.isNewRequest = false) :=
  ⟨(request_shape (scriptedEnv []) () world0 " a/b " rfl).1,
   (request_shape (scriptedEnv []) () world0 " a/b " rfl).2.1,
   (request_shape (scriptedEnv []) () world0 " a/b " rfl).2.2 ⟨some " a/b ", none, []⟩ rfl⟩

/-- C4: error pass-through of `Create`, `Get`, `Update` and `Delete`. Once validation
has passed (for `Create`: always; for the others: `isEmptyString` says the identifier is
not empty), if `NewRequest` returns an error `e` the operation returns exactly `e` (with
a nil consumer group for `Create`, `Get` and `Update`) and the only call made is that
`NewRequest`, so `Do` is not called; if `NewRequest` returns a nil error and `Do` returns
an error `e` the operation returns exactly `e`, after those two calls. Whatever the
arguments, an operation adds at most one call of `Do` to the trace. -/
theorem error_pass_through (env : Env σ Req Err Ctx Raw) (ctx : Ctx)
    (w : World σ Req Ctx) :
    (∀ cg : ConsumerGroup,
      (∀ req e s1,
        env.NewRequest (Create.route cg).2 (Create.route cg).1 Iface.nil
          (Iface.consumerGroup cg) w.st = ((req, some e), s1) →
        Create env ctx (some cg) w
          = (Outcome.returns (none, some (GoError.collaborator e)),
              ⟨s1, w.trace ++ [Call.NewRequest (Create.route cg).2 (Create.route cg).1
                Iface.nil (Iface.consumerGroup cg)]⟩)) ∧
      (∀ req s1 v e s2,
        env.NewRequest (Create.route cg).2 (Create.route cg).1 Iface.nil
          (Iface.consumerGroup cg) w.st = ((req, none), s1) →
        env.Do ctx req Target.consumerGroup ConsumerGroup.zero s1 = ((v, some e), s2) →
        Create env ctx (some cg) w
          = (Outcome.returns (none, some (GoError.collaborator e)),
              ⟨s2, w.trace ++ [Call.NewRequest (Create.route cg).2 (Create.route cg).1
                Iface.nil (Iface.consumerGroup cg)] ++ [Call.Do ctx req Target.consumerGroup]⟩))) ∧
    (∀ id, env.isEmptyString (some id) = false →
      (∀ req e s1,
        env.NewRequest "GET" ("/consumer_groups/" ++ id) Iface.nil Iface.nil w.st
          = ((req, some e), s1) →
        Get env ctx (some id) w
          = (Outcome.returns (none, some (GoError.collaborator e)),
              ⟨s1, w.trace ++ [Call.NewRequest "GET" ("/consumer_groups/" ++ id) Iface.nil
                Iface.nil]⟩)) ∧
      (∀ req s1 v e s2,
        env.NewRequest "GET" ("/consumer_groups/" ++ id) Iface.nil Iface.nil w.st
          = ((req, none), s1) →
        env.Do ctx req Target.wrapped wrappedConsumerGroup.zero s1 = ((v, some e), s2) →
        Get env ctx (some id) w
          = (Outcome.returns (none, some (GoError.collaborator e)),
              ⟨s2, w.trace ++ [Call.NewRequest "GET" ("/consumer_groups/" ++ id) Iface.nil
                Iface.nil] ++ [Call.Do ctx req Target.wrapped]⟩))) ∧
    (∀ (cg : ConsumerGroup) (id : String), cg.ID = some id →
      env.isEmptyString (some id) = false →
      (∀ req e s1,
        env.NewRequest "PATCH" ("/consumer_groups/" ++ id) Iface.nil
          (Iface.consumerGroup cg) w.st = ((req, some e), s1) →
        Update env ctx (some cg) w
          = (Outcome.returns (none, some (GoError.collaborator e)),
              ⟨s1, w.trace ++ [Call.NewRequest "PATCH" ("/consumer_groups/" ++ id) Iface.nil
                (Iface.consumerGroup cg)]⟩)) ∧
      (∀ req s1 v e s2,
        env.NewRequest "PATCH" ("/consumer_groups/" ++ id) Iface.nil
          (Iface.consumerGroup cg) w.st = ((req, none), s1) →
        env.Do ctx req Target.consumerGroup ConsumerGroup.zero s1 = ((v, some e), s2) →
        Update env ctx (some cg) w
          = (Outcome.returns (none, some (GoError.collaborator e)),
              ⟨s2, w.trace ++ [Call.NewRequest "PATCH" ("/consumer_groups/" ++ id) Iface.nil
                (Iface.consumerGroup cg)] ++ [Call.Do ctx req Target.consumerGroup]⟩))) ∧
    (∀ id, env.isEmptyString (some id) = false →
      (∀ req e s1,
        env.NewRequest "DELETE" ("/consumer_groups/" ++ id) Iface.nil Iface.nil w.st
          = ((req, some e), s1) →
        Delete env ctx (some id) w
          = (Outcome.returns (some (GoError.collaborator e)),
              ⟨s1, w.trace ++ [Call.NewRequest "DELETE" ("/consumer_groups/" ++ id) Iface.nil
                Iface.nil]⟩)) ∧
      (∀ req s1 e s2,
        env.NewRequest "DELETE" ("/consumer_groups/" ++ id) Iface.nil Iface.nil w.st
          = ((req, none), s1) →
        env.Do ctx req Target.nil () s1 = (((), some e), s2) →
        Delete env ctx (some id) w
          = (Outcome.returns (some (GoError.collaborator e)),
              ⟨s2, w.trace ++ [Call.NewRequest "DELETE" ("/consumer_groups/" ++ id) Iface.nil
                Iface.nil] ++ [Call.Do ctx req Target.nil]⟩))) ∧
    (∀ consumerGroup, List.countP Call.isDo (Create env ctx consumerGroup w).2.trace
      ≤ List.countP Call.isDo w.trace + 1) ∧
    (∀ nameOrID, List.countP Call.isDo (Get env ctx nameOrID w).2.trace
      ≤ List.countP Call.isDo w.trace + 1) ∧
    (∀ consumerGroup, List.countP Call.isDo (Update env ctx consumerGroup w).2.trace
      ≤ List.countP Call.isDo w.trace + 1) ∧
    (∀ nameOrID, List.countP Call.isDo (Delete env ctx nameOrID w).2.trace
      ≤ List.countP Call.isDo w.trace + 1) := by
  refine ⟨fun cg => ⟨fun req e s1 hreq => ?_, fun req s1 v e s2 hreq hdo => ?_⟩,
    fun id hid => ⟨fun req e s1 hreq => ?_, fun req s1 v e s2 hreq hdo => ?_⟩,
    fun cg id hcg hid => ⟨fun req e s1 hreq => ?_, fun req s1 v e s2 hreq hdo => ?_⟩,
    fun id hid => ⟨fun req e s1 hreq => ?_, fun req s1 e s2 hreq hdo => ?_⟩,
    fun cgp => Create_count_Do env ctx cgp w, fun id => Get_count_Do env ctx id w,
    fun cgp => Update_count_Do env ctx cgp w, fun id => Delete_count_Do env ctx id w⟩
  · exact Create_of_NewRequest_error env ctx cg w req e s1 hreq
  · exact Create_of_Do_error env ctx cg w req s1 hreq v e s2 hdo
  · exact Get_of_NewRequest_error env ctx id w hid req e s1 hreq
  · exact Get_of_Do_error env ctx id w hid req s1 hreq v e s2 hdo
  · exact Update_of_NewRequest_error env ctx cg id w hcg hid req e s1 hreq
  · exact Update_of_Do_error env ctx cg id w hcg hid req s1 hreq v e s2 hdo
  · exact Delete_of_NewRequest_error env ctx id w hid req e s1 hreq
  · exact Delete_of_Do env ctx id w hid req s1 hreq (some e) s2 hdo

/-- Witness of C4: against the scripted client, `Create` with the ID "%zz" returns the
error of `NewRequest` without calling `Do`, `Create` with the ID "taken" and `Get` of
"missing" return the error of `Do`, and `Delete` of "%zz" returns the error of
`NewRequest`. -/
theorem error_pass_through_witness :
    Create (scriptedEnv []) () (some ⟨some "%zz", none, []⟩) world0
      = (Outcome.returns (none, some (GoError.collaborator "invalid URL escape")),
          ⟨0, [Call.NewRequest "PUT" "/consumer_groups/%zz" Iface.nil
            (Iface.consumerGroup ⟨some "%zz", none, []⟩)]⟩) ∧
    Create (scriptedEnv []) () (some ⟨some "taken", none, []⟩) world0
      = (Outcome.returns (none, some (GoError.collaborator "409 Conflict")),
          ⟨0, [Call.NewRequest "PUT" "/consumer_groups/taken" Iface.nil
            (Iface.consumerGroup ⟨some "taken", none, []⟩),
            Call.Do () (some ("PUT", "/consumer_groups/taken")) Target.consumerGroup]⟩) ∧
    Get (scriptedEnv []) () (some "missing") world0
      = (Outcome.returns (none, some (GoError.collaborator "404 Not Found")),
          ⟨0, [Call.NewRequest "GET" "/consumer_groups/missing" Iface.nil Iface.nil,
            Call.Do () (some ("GET", "/consumer_groups/missing")) Target.wrapped]⟩) ∧
    Delete (scriptedEnv []) () (some "%zz") world0
      = (Outcome.returns (some (GoError.collaborator "invalid URL escape")),
          ⟨0, [Call.NewRequest "DELETE" "/consumer_groups/%zz" Iface.nil Iface.nil]⟩) :=
  ⟨((error_pass_through (scriptedEnv []) () world0).1 ⟨some "%zz", none, []⟩).1
      none "invalid URL escape" 0 rfl,
   ((error_pass_through (scriptedEnv []) () world0).1 ⟨some "taken", none, []⟩).2
      (some ("PUT", "/consumer_groups/taken")) 0 ConsumerGroup.zero "409 Conflict" 0 rfl rfl,
   ((error_pass_through (scriptedEnv []) () world0).2.1 "missing" rfl).2
      (some ("GET", "/consumer_groups/missing")) 0 wrappedConsumerGroup.zero "404 Not Found" 0
      rfl rfl,
   ((error_pass_through (scriptedEnv []) () world0).2.2.2.1 "%zz" rfl).1
      none "invalid URL escape" 0 rfl⟩

/-- Counterexample to C5: against the scripted client, whose `Do` leaves the wrapper of
the response to GET "/consumer_groups/bare" without a consumer group, `Get` returns a nil
consumer group together with a nil error. -/
theorem Get_nil_group_nil_error :
    Get (scriptedEnv []) () (some "bare") world0
      = (Outcome.returns (none, none),
          ⟨0, [Call.NewRequest "GET" "/consumer_groups/bare" Iface.nil Iface.nil,
            Call.Do () (some ("GET", "/consumer_groups/bare")) Target.wrapped]⟩) := by
  rfl

/-- C5, amended: when `Get` returns a nil error, the identifier was a non-nil string,
`NewRequest` and `Do` both returned a nil error, and the consumer group returned is the
`ConsumerGroup` field of the wrapper as `Do` left it: non-nil exactly when that field is
non-nil. -/
theorem Get_returns_wrapped_field (env : Env σ Req Err Ctx Raw) (ctx : Ctx)
    (nameOrID : Option String) (w w1 : World σ Req Ctx) (r : Option ConsumerGroup)
    (h : Get env ctx nameOrID w = (Outcome.returns (r, none), w1)) :
    ∃ id req s1 v s2, nameOrID = some id
      ∧ env.NewRequest "GET" ("/consumer_groups/" ++ id) Iface.nil Iface.nil w.st
          = ((req, none), s1)
      ∧ env.Do ctx req Target.wrapped wrappedConsumerGroup.zero s1 = ((v, none), s2)
      ∧ r = v.ConsumerGroup ∧ (r ≠ none ↔ v.ConsumerGroup ≠ none) := by
  obtain ⟨id, req, s1, v, s2, h1, h2, h3, h4⟩ := Get_of_nil_error env ctx nameOrID w w1 r h
  exact ⟨id, req, s1, v, s2, h1, h2, h3, h4, by rw [h4]⟩

/-- Witness of the amended C5: `Get` of "foo" against the scripted client returns a nil
error and the consumer group of the wrapper. -/
theorem Get_returns_wrapped_field_witness :
    ∃ id req s1 v s2, some "foo" = some id
      ∧ (scriptedEnv []).NewRequest "GET" ("/consumer_groups/" ++ id) Iface.nil Iface.nil
          world0.st = ((req, none), s1)
      ∧ (scriptedEnv []).Do () req Target.wrapped wrappedConsumerGroup.zero s1
          = ((v, none), s2)
      ∧ some (ConsumerGroup.mk (some "id-1") (some "foo") []) = v.ConsumerGroup
      ∧ (some (ConsumerGroup.mk (some "id-1") (some "foo") []) ≠ none
          ↔ v.ConsumerGroup ≠ none) :=
  Get_returns_wrapped_field (scriptedEnv []) () (some "foo") world0
    ⟨0, [Call.NewRequest "GET" "/consumer_groups/foo" Iface.nil Iface.nil,
      Call.Do () (some ("GET", "/consumer_groups/foo")) Target.wrapped]⟩
    (some ⟨some "id-1", some "foo", []⟩) rfl

/-- C10: response decoding differs between `Get` and `Create`/`Update`. `Get` has `Do`
decode into a `wrappedConsumerGroup` and, when `Do` returns a nil error, returns the
`ConsumerGroup` field of that wrapper, whatever it is; `Create` and `Update` have `Do`
decode into a `ConsumerGroup` and, when `Do` returns a nil error, return a pointer to
it. Hence whenever `Create` or `Update` returns a nil error the consumer group returned
is non-nil. -/
theorem response_decoding (env : Env σ Req Err Ctx Raw) (ctx : Ctx) (w : World σ Req Ctx) :
    (∀ id, env.isEmptyString (some id) = false → ∀ req s1 v s2,
      env.NewRequest "GET" ("/consumer_groups/" ++ id) Iface.nil Iface.nil w.st
        = ((req, none), s1) →
      env.Do ctx req Target.wrapped wrappedConsumerGroup.zero s1 = ((v, none), s2) →
      Get env ctx (some id) w
        = (Outcome.returns (v.ConsumerGroup, none),
            ⟨s2, w.trace ++ [Call.NewRequest "GET" ("/consumer_groups/" ++ id) Iface.nil
              Iface.nil] ++ [Call.Do ctx req Target.wrapped]⟩)) ∧
    (∀ (cg : ConsumerGroup) req s1 v s2,
      env.NewRequest (Create.route cg).2 (Create.route cg).1 Iface.nil
        (Iface.consumerGroup cg) w.st = ((req, none), s1) →
      env.Do ctx req Target.consumerGroup ConsumerGroup.zero s1 = ((v, none), s2) →
      Create env ctx (some cg) w
        = (Outcome.returns (some v, none),
            ⟨s2, w.trace ++ [Call.NewRequest (Create.route cg).2 (Create.route cg).1
              Iface.nil (Iface.consumerGroup cg)] ++ [Call.Do ctx req Target.consumerGroup]⟩)) ∧
    (∀ (cg : ConsumerGroup) (id : String), cg.ID = some id →
      env.isEmptyString (some id) = false → ∀ req s1 v s2,
      env.NewRequest "PATCH" ("/consumer_groups/" ++ id) Iface.nil
        (Iface.consumerGroup cg) w.st = ((req, none), s1) →
      env.Do ctx req Target.consumerGroup ConsumerGroup.zero s1 = ((v, none), s2) →
      Update env ctx (some cg) w
        = (Outcome.returns (some v, none),
            ⟨s2, w.trace ++ [Call.NewRequest "PATCH" ("/consumer_groups/" ++ id) Iface.nil
              (Iface.consumerGroup cg)] ++ [Call.Do ctx req Target.consumerGroup]⟩)) ∧
    (∀ consumerGroup r w1,
      Create env ctx consumerGroup w = (Outcome.returns (r, none), w1) → r ≠ none) ∧
    (∀ consumerGroup r w1,
      Update env ctx consumerGroup w = (Outcome.returns (r, none), w1) → r ≠ none) :=
  ⟨fun id hid req s1 v s2 hreq hdo => Get_of_Do_ok env ctx id w hid req s1 hreq v s2 hdo,
   fun cg req s1 v s2 hreq hdo => Create_of_Do_ok env ctx cg w req s1 hreq v s2 hdo,
   fun cg id hcg hid req s1 v s2 hreq hdo =>
     Update_of_Do_ok env ctx cg id w hcg hid req s1 hreq v s2 hdo,
   fun consumerGroup r w1 h => Create_nonnil_of_nil_error env ctx consumerGroup w w1 r h,
   fun consumerGroup r w1 h => Update_nonnil_of_nil_error env ctx consumerGroup w w1 r h⟩

/-- Witness of C10: against the scripted client `Get` of "foo" returns the consumer group
inside the wrapper, and `Create` and `Update` return the decoded consumer group, which is
not nil. -/
theorem response_decoding_witness :
    Get (scriptedEnv []) () (some "foo") world0
      = (Outcome.returns (some ⟨some "id-1", some "foo", []⟩, none),
          ⟨0, [Call.NewRequest "GET" "/consumer_groups/foo" Iface.nil Iface.nil,
            Call.Do () (some ("GET", "/consumer_groups/foo")) Target.wrapped]⟩) ∧
    Create (scriptedEnv []) () (some ⟨none, some "foo", []⟩) world0
      = (Outcome.returns (some ⟨some "id-1", some "foo", []⟩, none),
          ⟨0, [Call.NewRequest "POST" "/consumer_groups" Iface.nil
            (Iface.consumerGroup ⟨none, some "foo", []⟩),
            Call.Do () (some ("POST", "/consumer_groups")) Target.consumerGroup]⟩) ∧
    Update (scriptedEnv []) () (some ⟨some "id-1", some "bar", []⟩) world0
      = (Outcome.returns (some ⟨some "id-1", some "foo", []⟩, none),
          ⟨0, [Call.NewRequest "PATCH" "/consumer_groups/id-1" Iface.nil
            (Iface.consumerGroup ⟨some "id-1", some "bar", []⟩),
            Call.Do () (some ("PATCH", "/consumer_groups/id-1")) Target.consumerGroup]⟩) ∧
    (some (ConsumerGroup.mk (some "id-1") (some "foo") []) ≠ none) ∧
    (some (ConsumerGroup.mk (some "id-1") (some "foo") []) ≠ none) :=
  ⟨(response_decoding (scriptedEnv []) () world0).1 "foo" rfl
      (some ("GET", "/consumer_groups/foo")) 0 ⟨some ⟨some "id-1", some "foo", []⟩⟩ 0 rfl rfl,
   (response_decoding (scriptedEnv []) () world0).2.1 ⟨none, some "foo", []⟩
      (some ("POST", "/consumer_groups")) 0 ⟨some "id-1", some "foo", []⟩ 0 rfl rfl,
   (response_decoding (scriptedEnv []) () world0).2.2.1 ⟨some "id-1", some "bar", []⟩ "id-1"
      rfl rfl (some ("PATCH", "/consumer_groups/id-1")) 0 ⟨some "id-1", some "foo", []⟩ 0
      rfl rfl,
   (response_decoding (scriptedEnv []) () world0).2.2.2.1 (some ⟨none, some "foo", []⟩)
      (some ⟨some "id-1", some "foo", []⟩)
      ⟨0, [Call.NewRequest "POST" "/consumer_groups" Iface.nil
        (Iface.consumerGroup ⟨none, some "foo", []⟩),
        Call.Do () (some ("POST", "/consumer_groups")) Target.consumerGroup]⟩ rfl,
   (response_decoding (scriptedEnv []) () world0).2.2.2.2
      (some ⟨some "id-1", some "bar", []⟩) (some ⟨some "id-1", some "foo", []⟩)
      ⟨0, [Call.NewRequest "PATCH" "/consumer_groups/id-1" Iface.nil
        (Iface.consumerGroup ⟨some "id-1", some "bar", []⟩),
        Call.Do () (some ("PATCH", "/consumer_groups/id-1")) Target.consumerGroup]⟩ rfl⟩

end Claims

section ListClaims

variable {σ Req Err Ctx Raw : Type}

/-- C6: `List` maps a page element by element. When `client.list`, called with the path
"/consumer_groups" and `opt` itself, returns `data`, the cursor `next` and a nil error,
and every element of `data` decodes without error, `List` returns a nil error, `next` as
it is, and the decodings of the elements of `data` in the same order: a list of the same
length whose `i`-th entry is the decoding of the `i`-th element. The one call it makes is
that call of `client.list`. -/
theorem List_maps_page (env : Env σ Req Err Ctx Raw) (ctx : Ctx) (opt : Option ListOpt)
    (w : World σ Req Ctx) (data : Slice Raw) (next : Option ListOpt) (s1 : σ)
    (hlist : env.list ctx "/consumer_groups" opt w.st = ((data, next, none), s1))
    (hdec : ∀ x ∈ data, decodeError env x = none) :
    ConsumerGroupService.List env ctx opt w
        = ((data.map (decoded env), next, none),
            ⟨s1, w.trace ++ [Call.list ctx "/consumer_groups" opt]⟩)
      ∧ (ConsumerGroupService.List env ctx opt w).1.1.length = data.length
      ∧ ∀ i : Nat, (ConsumerGroupService.List env ctx opt w).1.1[i]?
          = data[i]?.map (decoded env) := by
  have h : ConsumerGroupService.List env ctx opt w
        = ((data.map (decoded env), next, none),
            ⟨s1, w.trace ++ [Call.list ctx "/consumer_groups" opt]⟩) := by
    rw [List_of_list_ok env ctx opt w data next s1 hlist,
      ListLoop_of_decodeError_none env next data hdec []]
    simp
  refine ⟨h, ?_, ?_⟩
  · rw [h]; simp
  · intro i
    rw [h]; simp

/-- Witness of C6: a page of three raw messages, listed with a nil `opt`, comes back as
three consumer groups in the same order, with the nil cursor. -/
theorem List_maps_page_witness :
    ConsumerGroupService.List (scriptedEnv [some [[1], [2], [3]]]) () none world0
        = (([⟨none, some "foo1", []⟩, ⟨none, some "foo2", []⟩, ⟨none, some "foo3", []⟩],
            none, none), ⟨1, [Call.list () "/consumer_groups" none]⟩)
      ∧ (ConsumerGroupService.List (scriptedEnv [some [[1], [2], [3]]]) () none
          world0).1.1.length = 3
      ∧ ∀ i : Nat, (ConsumerGroupService.List (scriptedEnv [some [[1], [2], [3]]]) () none
          world0).1.1[i]?
          = [[1], [2], [3]][i]?.map (decoded (scriptedEnv [some [[1], [2], [3]]])) :=
  List_maps_page (scriptedEnv [some [[1], [2], [3]]]) () none world0 [[1], [2], [3]] none 1
    rfl (by decide)

/-- C8: `List` is all-or-nothing on failure. If `client.list` returns an error `e`,
`List` returns (nil, nil, `e`) after that one call, whatever `MarshalJSON` and
`json.Unmarshal` would do (they are not consulted). If `client.list` returns a nil error
and a page in which `x` is the first element whose marshalling or decoding fails, with
error `e`, `List` returns (nil, nil, `e`): neither the entries decoded before `x` nor the
cursor. -/
theorem List_all_or_nothing (env : Env σ Req Err Ctx Raw) (ctx : Ctx)
    (opt : Option ListOpt) (w : World σ Req Ctx) :
    (∀ d n e s1, env.list ctx "/consumer_groups" opt w.st = ((d, n, some e), s1) →
      ∀ (m : Raw → Bytes × Option Err)
        (u : Bytes → ConsumerGroup → ConsumerGroup × Option Err),
      ConsumerGroupService.List
          ⟨env.NewRequest, env.Do, env.list, env.isEmptyString, m, u, env.pageSize⟩ ctx opt w
        = (([], none, some (GoError.collaborator e)),
            ⟨s1, w.trace ++ [Call.list ctx "/consumer_groups" opt]⟩)) ∧
    (∀ pre x post next e s1,
      env.list ctx "/consumer_groups" opt w.st = ((pre ++ x :: post, next, none), s1) →
      (∀ y ∈ pre, decodeError env y = none) → decodeError env x = some e →
      ConsumerGroupService.List env ctx opt w
        = (([], none, some (GoError.collaborator e)),
            ⟨s1, w.trace ++ [Call.list ctx "/consumer_groups" opt]⟩)) := by
  constructor
  · intro d n e s1 hlist m u
    exact List_of_list_error
      ⟨env.NewRequest, env.Do, env.list, env.isEmptyString, m, u, env.pageSize⟩
      ctx opt w d n e s1 hlist
  · intro pre x post next e s1 hlist hpre hx
    rw [List_of_list_ok env ctx opt w (pre ++ x :: post) next s1 hlist,
      ListLoop_of_decodeError_some env next pre x post e hpre hx []]

/-- Witness of C8: a failed `client.list` gives its error; a page whose second element
does not decode gives the error of that element and nothing else. -/
theorem List_all_or_nothing_witness :
    ConsumerGroupService.List (scriptedEnv [none]) () none world0
        = (([], none, some (GoError.collaborator "connection reset")),
            ⟨1, [Call.list () "/consumer_groups" none]⟩) ∧
    ConsumerGroupService.List (scriptedEnv [some [[1], [], [3]], some [[2]]]) () none world0
        = (([], none, some (GoError.collaborator "unexpected end of JSON input")),
            ⟨1, [Call.list () "/consumer_groups" none]⟩) :=
  ⟨(List_all_or_nothing (scriptedEnv [none]) () none world0).1 [] none "connection reset" 1
      rfl (scriptedEnv [none]).MarshalJSON (scriptedEnv [none]).Unmarshal,
   (List_all_or_nothing (scriptedEnv [some [[1], [], [3]], some [[2]]]) () none world0).2
      [[1]] [] [[3]] (some ⟨1, [], false⟩) "unexpected end of JSON input" 1 rfl
      (by decide) rfl⟩

/-- C7: `ListAll` returns the concatenation of all pages. If, starting from the cursor
`ListOpt{Size: pageSize}`, the successive calls of `List` all return a nil error and
return `pages`, the last of them with a nil cursor, then with enough fuel (more than the
number of pages) `ListAll` ends, and returns a nil error and the consumer groups of the
pages concatenated in page order; the length of the result is the sum of the lengths of
the pages; and the calls made are one `client.list` per page, the first with
`ListOpt{Size: pageSize}`, each later one with the cursor the previous page came with,
none after the page that came with the nil cursor. -/
theorem ListAll_concatenates_pages (env : Env σ Req Err Ctx Raw) (ctx : Ctx)
    (w : World σ Req Ctx) (pages : List (Slice ConsumerGroup × Option ListOpt))
    (w1 : World σ Req Ctx)
    (h : Pages env ctx w (some ⟨env.pageSize, [], false⟩) pages w1 none) :
    (∀ fuel, pages.length < fuel →
      ConsumerGroupService.ListAll env ctx fuel w
        = some (((pages.map Prod.fst).flatten, none), w1))
      ∧ (pages.map Prod.fst).flatten.length = (pages.map (fun p => p.1.length)).sum
      ∧ w1.trace = w.trace ++ (cursorsUsed (some ⟨env.pageSize, [], false⟩) pages).map
          (Call.list ctx "/consumer_groups")
      ∧ (cursorsUsed (some ⟨env.pageSize, [], false⟩) pages).head?
          = some (some ⟨env.pageSize, [], false⟩)
      ∧ (cursorsUsed (some ⟨env.pageSize, [], false⟩) pages).length = pages.length := by
  refine ⟨?_, ?_, ?_, ?_, ?_⟩
  · intro fuel hfuel
    have := ListAllLoop_of_Pages env ctx pages w _ w1 h [] fuel hfuel
    simpa [ConsumerGroupService.ListAll] using this
  · rw [List.length_flatten, List.map_map]
    rfl
  · exact Pages_trace env ctx pages w _ w1 none h
  · cases pages with
    | nil => simp [Pages] at h
    | cons page rest => simp [cursorsUsed]
  · exact cursorsUsed_length _ pages

/-- Witness of C7: two pages, of two consumer groups and of one, are returned as three
consumer groups, after two calls of `client.list`. -/
theorem ListAll_concatenates_pages_witness :
    ConsumerGroupService.ListAll (scriptedEnv [some [[1], [2]], some [[3]]]) () 3 world0
      = some (([⟨none, some "foo1", []⟩, ⟨none, some "foo2", []⟩, ⟨none, some "foo3", []⟩],
          none),
          ⟨2, [Call.list () "/consumer_groups" (some ⟨2, [], false⟩),
            Call.list () "/consumer_groups" (some ⟨1, [], false⟩)]⟩) :=
  (ListAll_concatenates_pages (scriptedEnv [some [[1], [2]], some [[3]]]) () world0
    [([⟨none, some "foo1", []⟩, ⟨none, some "foo2", []⟩], some ⟨1, [], false⟩),
     ([⟨none, some "foo3", []⟩], none)]
    ⟨2, [Call.list () "/consumer_groups" (some ⟨2, [], false⟩),
      Call.list () "/consumer_groups" (some ⟨1, [], false⟩)]⟩
    ⟨⟨2, [], false⟩, rfl, ⟨1, [Call.list () "/consumer_groups" (some ⟨2, [], false⟩)]⟩, rfl,
      ⟨1, [], false⟩, rfl, _, rfl, rfl, rfl⟩).1 3 (by decide)

/-- C9: `ListAll` is all-or-nothing on failure. If, starting from the cursor
`ListOpt{Size: pageSize}`, the successive calls of `List` return `pages` without error
(no page at all when the first call is the failing one) and the next call of `List`
returns an error `e`, then with enough fuel `ListAll` returns (nil, `e`), in the world the
failing call left: the consumer groups of the earlier pages are dropped and the failing
`client.list` is the last call made. -/
theorem ListAll_all_or_nothing (env : Env σ Req Err Ctx Raw) (ctx : Ctx)
    (w : World σ Req Ctx) (pages : List (Slice ConsumerGroup × Option ListOpt))
    (w1 : World σ Req Ctx) (o : ListOpt)
    (h : Pages env ctx w (some ⟨env.pageSize, [], false⟩) pages w1 (some o))
    (d : Slice ConsumerGroup) (n : Option ListOpt) (e : GoError Err) (w2 : World σ Req Ctx)
    (hfail : ConsumerGroupService.List env ctx (some o) w1 = ((d, n, some e), w2)) :
    (∀ fuel, pages.length < fuel →
      ConsumerGroupService.ListAll env ctx fuel w = some (([], some e), w2))
      ∧ w2.trace = w.trace ++ (cursorsUsed (some ⟨env.pageSize, [], false⟩) pages).map
          (Call.list ctx "/consumer_groups") ++ [Call.list ctx "/consumer_groups" (some o)] := by
  constructor
  · intro fuel hfuel
    exact ListAllLoop_of_Pages_error env ctx pages w _ w1 o h d n e w2 hfail [] fuel hfuel
  · have ht := List_trace env ctx (some o) w1
    rw [hfail] at ht
    simp only at ht
    rw [ht, Pages_trace env ctx pages w _ w1 (some o) h]

/-- Witness of C9: when the second page fails, `ListAll` returns the error of that call
and none of the two consumer groups of the first page. -/
theorem ListAll_all_or_nothing_witness :
    ConsumerGroupService.ListAll (scriptedEnv [some [[1], [2]], none]) () 2 world0
      = some (([], some (GoError.collaborator "connection reset")),
          ⟨2, [Call.list () "/consumer_groups" (some ⟨2, [], false⟩),
            Call.list () "/consumer_groups" (some ⟨1, [], false⟩)]⟩) :=
  (ListAll_all_or_nothing (scriptedEnv [some [[1], [2]], none]) () world0
    [([⟨none, some "foo1", []⟩, ⟨none, some "foo2", []⟩], some ⟨1, [], false⟩)]
    ⟨1, [Call.list () "/consumer_groups" (some ⟨2, [], false⟩)]⟩ ⟨1, [], false⟩
    ⟨⟨2, [], false⟩, rfl, _, rfl, rfl, rfl⟩
    [] none (GoError.collaborator "connection reset")
    ⟨2, [Call.list () "/consumer_groups" (some ⟨2, [], false⟩),
      Call.list () "/consumer_groups" (some ⟨1, [], false⟩)]⟩ rfl).1 2 (by decide)

end ListClaims

end kong
